import Mathlib

/-!
Shallow embedding of `src/src/actions/NtAction.C` from the Moltres repository.

`NtAction` is a MOOSE wiring action: given a configuration of input
parameters, it is invoked once per task (`add_variable`, `add_kernel`,
`add_bc`, `add_ic`, `add_aux_variable`, `add_aux_kernel`,
`check_copy_nodal_vars`, `copy_nodal_vars`) and, per neutron energy group,
emits object descriptors (kind, registry name, parameter map) to the host
problem, plus a temperature-variable section after the group loop.

The embedding below mirrors `NtAction::NtAction`, `NtAction::act`,
`NtAction::addNtKernel`, `NtAction::addCoupledFissionKernel` and
`NtAction::addDelayedNeutronSource` line by line.  A `mooseError` call is
modelled as `Except.error`; it aborts the remainder of the action, so no
later descriptor is emitted.
-/

/-- A parameter value stored into an object descriptor's parameter map.
`Real`-valued parameters in the source only ever receive integer literals or
verbatim-forwarded configuration fields, so they are modelled as `Int`. -/
inductive Value where
  | nat (n : Nat)
  | bool (b : Bool)
  | str (s : String)
  | strList (l : List String)
  | int (i : Int)
deriving DecidableEq, Repr

/-- The `vacuum_bc_type` MooseEnum `"marshak mark milne"` (default `marshak`). -/
inductive VacuumBCType where
  | marshak
  | mark
  | milne
deriving DecidableEq, Repr

/-- Rendering of the MooseEnum value forwarded into the BC descriptor. -/
def VacuumBCType.render : VacuumBCType → String
  | .marshak => "marshak"
  | .mark => "mark"
  | .milne => "milne"

/-- The input parameters of `NtAction` (`NtAction::validParams` plus the
`block` restriction parameter inherited from the base action).  Optional
parameters without a default are `Option`: `none` models
`isParamValid(...) == false`. -/
structure Config where
  num_precursor_groups : Nat
  var_name_base : String
  temperature : String
  pre_concs : Option (List String)
  temp_scaling : Option Int
  num_groups : Nat
  use_exp_form : Bool
  jac_test : Bool
  nt_ic_function : Option String
  vacuum_boundaries : Option (List String)
  vacuum_bc_type : VacuumBCType
  create_temperature_var : Bool
  init_nts_from_file : Bool
  init_temperature_from_file : Bool
  dg_for_temperature : Bool
  eigen : Bool
  account_delayed : Bool
  sss2_input : Bool
  pre_blocks : Option (List String)
  block : Option (List String)
  eigenvalue_scaling : Int
deriving DecidableEq, Repr

/-- The tasks `NtAction` is registered for (`registerMooseAction` calls). -/
inductive NtTask where
  | add_kernel
  | add_bc
  | add_variable
  | add_ic
  | add_aux_variable
  | add_aux_kernel
  | check_copy_nodal_vars
  | copy_nodal_vars
deriving DecidableEq, Repr

/-- An object-construction request submitted to the host registry:
a (kind, registry name, parameter map) triple. -/
structure Descriptor where
  kind : String
  name : String
  params : List (String × Value)
deriving DecidableEq, Repr

/-- The observable effects of one invocation of `NtAction::act`:
the descriptors submitted (in submission order), the
`addVariableToCopy(dst, src, tag)` restart-copy instructions, and whether
`_app.setExodusFileRestart(true)` was called. -/
structure ActOutput where
  descriptors : List Descriptor
  copies : List (String × String × String)
  exodusRestart : Bool
deriving DecidableEq, Repr

/-- Sequencing of effects: descriptors and copy instructions concatenate in
order; the restart flag is set if either part set it. -/
def ActOutput.append (a b : ActOutput) : ActOutput :=
  { descriptors := a.descriptors ++ b.descriptors
  , copies := a.copies ++ b.copies
  , exodusRestart := a.exodusRestart || b.exodusRestart }

/-- The empty effect. -/
def ActOutput.empty : ActOutput :=
  { descriptors := [], copies := [], exodusRestart := false }

/-- `var_name_base + Moose::stringify(op)`: decimal rendering, no padding. -/
def variableName (cfg : Config) (op : Nat) : String :=
  cfg.var_name_base ++ toString op

/-- The `all_var_names` vector built at the top of `NtAction::act`:
group variable names for `op = 1 .. num_groups`, ascending. -/
def allVarNames (cfg : Config) : List String :=
  (List.range cfg.num_groups).map (fun k => variableName cfg (k + 1))

/-- The optional `block` restriction forwarded into descriptors when
`isParamValid("block")`. -/
def blockParam (cfg : Config) : List (String × Value) :=
  match cfg.block with
  | some b => [("block", Value.strList b)]
  | none => []

/-- `NtAction::addNtKernel`: kernel descriptor for `NtTimeDerivative`,
`GroupDiffusion`, `SigmaR` or `InScatter`.  `use_exp_form` is a required
parameter, so `isParamValid("use_exp_form")` always holds;
`applySpecificParameters` forwards `temperature`; `InScatter` additionally
receives `num_groups`, `sss2_input` and `group_fluxes`. -/
def ntKernel (cfg : Config) (op : Nat) (var_name : String)
    (kernel_type : String) : Descriptor :=
  { kind := kernel_type
  , name := kernel_type ++ "_" ++ var_name
  , params :=
      [("variable", Value.str var_name), ("group_number", Value.nat op)]
      ++ blockParam cfg
      ++ [("use_exp_form", Value.bool cfg.use_exp_form),
          ("temperature", Value.str cfg.temperature)]
      ++ (if kernel_type = "InScatter" then
            [("num_groups", Value.nat cfg.num_groups),
             ("sss2_input", Value.bool cfg.sss2_input),
             ("group_fluxes", Value.strList (allVarNames cfg))]
          else []) }

/-- `NtAction::addCoupledFissionKernel`: when `eigen` is set, the
`extra_vector_tags = {"eigen"}` parameter is appended. -/
def coupledFissionKernel (cfg : Config) (op : Nat) (var_name : String) :
    Descriptor :=
  { kind := "CoupledFissionKernel"
  , name := "CoupledFissionKernel_" ++ var_name
  , params :=
      [("variable", Value.str var_name), ("group_number", Value.nat op)]
      ++ blockParam cfg
      ++ [("use_exp_form", Value.bool cfg.use_exp_form),
          ("temperature", Value.str cfg.temperature),
          ("num_groups", Value.nat cfg.num_groups),
          ("group_fluxes", Value.strList (allVarNames cfg)),
          ("account_delayed", Value.bool cfg.account_delayed),
          ("eigenvalue_scaling", Value.int cfg.eigenvalue_scaling)]
      ++ (if cfg.eigen then
            [("extra_vector_tags", Value.strList ["eigen"])]
          else []) }

/-- `NtAction::addDelayedNeutronSource`: block restriction comes from
`pre_blocks`; `applySpecificParameters` forwards `temperature` and, when
set, `pre_concs`. -/
def delayedNeutronSource (cfg : Config) (op : Nat) (var_name : String) :
    Descriptor :=
  { kind := "DelayedNeutronSource"
  , name := "DelayedNeutronSource_" ++ var_name
  , params :=
      [("variable", Value.str var_name), ("group_number", Value.nat op)]
      ++ (match cfg.pre_blocks with
          | some b => [("block", Value.strList b)]
          | none => [])
      ++ [("use_exp_form", Value.bool cfg.use_exp_form),
          ("temperature", Value.str cfg.temperature)]
      ++ (match cfg.pre_concs with
          | some p => [("pre_concs", Value.strList p)]
          | none => [])
      ++ [("num_precursor_groups", Value.nat cfg.num_precursor_groups)] }

/-- The `add_kernel` block of the per-group loop in `NtAction::act`:
time derivative (unless `eigen`), `GroupDiffusion`, `SigmaR`, `InScatter`
(unless `num_groups == 1`), `CoupledFissionKernel`, and
`DelayedNeutronSource` (when `account_delayed`). -/
def groupKernels (cfg : Config) (op : Nat) : List Descriptor :=
  let var_name := variableName cfg op
  (if cfg.eigen then [] else [ntKernel cfg op var_name "NtTimeDerivative"])
  ++ [ntKernel cfg op var_name "GroupDiffusion",
      ntKernel cfg op var_name "SigmaR"]
  ++ (if cfg.num_groups = 1 then [] else [ntKernel cfg op var_name "InScatter"])
  ++ [coupledFissionKernel cfg op var_name]
  ++ (if cfg.account_delayed then [delayedNeutronSource cfg op var_name] else [])

/-- The `add_bc` block of the per-group loop: one `VacuumConcBC` descriptor
when `isParamValid("vacuum_boundaries")`, else nothing. -/
def groupBCs (cfg : Config) (var_name : String) : List Descriptor :=
  match cfg.vacuum_boundaries with
  | some vb =>
      [{ kind := "VacuumConcBC"
       , name := "VacuumConcBC_" ++ var_name
       , params :=
           [("boundary", Value.strList vb),
            ("variable", Value.str var_name),
            ("use_exp_form", Value.bool cfg.use_exp_form),
            ("vacuum_bc_type", Value.str cfg.vacuum_bc_type.render)] }]
  | none => []

/-- The descriptor chosen inside the `add_ic` block once the conflicting
options check has passed: `RandomIC` if `jac_test`, else `FunctionIC` if
`nt_ic_function` is set, else `ConstantIC` with value 0 when `use_exp_form`
and 1 otherwise. -/
def groupIC (cfg : Config) (var_name : String) : Descriptor :=
  if cfg.jac_test then
    { kind := "RandomIC"
    , name := "RandomIC_" ++ var_name
    , params :=
        [("variable", Value.str var_name)]
        ++ blockParam cfg
        ++ [("min", Value.int 0), ("max", Value.int 1)] }
  else
    match cfg.nt_ic_function with
    | some f =>
        { kind := "FunctionIC"
        , name := "FunctionIC_" ++ var_name
        , params :=
            [("variable", Value.str var_name)]
            ++ blockParam cfg
            ++ [("function", Value.str f)] }
    | none =>
        { kind := "ConstantIC"
        , name := "ConstantIC_" ++ var_name
        , params :=
            [("variable", Value.str var_name)]
            ++ blockParam cfg
            ++ [("value", Value.int (if cfg.use_exp_form then 0 else 1))] }

/-- Modelled from the spec: `VariableNotAMooseObjectAction::addVariable` and
`getSubdomainIDs` are base-class members of this repository that are not
under `src/`.  Per the spec, `AddVariable` emits one Variable descriptor per
group with the derived name, and the spatial-domain restriction list is the
`block` parameter, omitted when unset. -/
def addVariableDescriptor (cfg : Config) (var_name : String) : Descriptor :=
  { kind := "Variable"
  , name := var_name
  , params :=
      [("family", Value.str "LAGRANGE"), ("order", Value.str "FIRST")]
      ++ blockParam cfg }

/-- The aux variable added in the `use_exp_form` section: first-order
Lagrange, restricted to the subdomains of the `block` parameter when any. -/
def auxVarDescriptor (cfg : Config) (aux_var_name : String) : Descriptor :=
  { kind := "AuxVariable"
  , name := aux_var_name
  , params :=
      [("family", Value.str "LAGRANGE"), ("order", Value.str "FIRST")]
      ++ blockParam cfg }

/-- The `Density` aux kernel converting the logarithmic group variable into
its linear aux field. -/
def densityAuxKernel (cfg : Config) (var_name : String) : Descriptor :=
  { kind := "Density"
  , name := "Density_" ++ (var_name ++ "_lin")
  , params :=
      [("variable", Value.str (var_name ++ "_lin")),
       ("density_log", Value.strList [var_name])]
      ++ blockParam cfg }

/-- The `mooseError` message raised in the `add_ic` block when `jac_test`
and `nt_ic_function` are both requested. -/
def jacTestConflictError : String :=
  "jac_test creates RandomICs. So are you sure you want to pass an initial condition function?"

/-- One iteration of the per-group loop of `NtAction::act` for a given task.
Each block of the loop body is guarded by a `_current_task` comparison, so
the iteration is presented as a match on the task. -/
def groupAct (cfg : Config) (task : NtTask) (op : Nat) :
    Except String ActOutput :=
  let var_name := variableName cfg op
  match task with
  | NtTask.check_copy_nodal_vars =>
      Except.ok { descriptors := [], copies := [],
                  exodusRestart := cfg.init_nts_from_file }
  | NtTask.copy_nodal_vars =>
      Except.ok { descriptors := []
                , copies :=
                    if cfg.init_nts_from_file then
                      [(var_name, var_name, "LATEST")]
                    else []
                , exodusRestart := false }
  | NtTask.add_variable =>
      Except.ok { descriptors := [addVariableDescriptor cfg var_name]
                , copies := [], exodusRestart := false }
  | NtTask.add_kernel =>
      Except.ok { descriptors := groupKernels cfg op
                , copies := [], exodusRestart := false }
  | NtTask.add_bc =>
      Except.ok { descriptors := groupBCs cfg var_name
                , copies := [], exodusRestart := false }
  | NtTask.add_ic =>
      if cfg.init_nts_from_file then
        Except.ok ActOutput.empty
      else if cfg.jac_test && cfg.nt_ic_function.isSome then
        Except.error jacTestConflictError
      else
        Except.ok { descriptors := [groupIC cfg var_name]
                  , copies := [], exodusRestart := false }
  | NtTask.add_aux_variable =>
      if cfg.use_exp_form then
        Except.ok { descriptors := [auxVarDescriptor cfg (var_name ++ "_lin")]
                  , copies := [], exodusRestart := false }
      else
        Except.ok ActOutput.empty
  | NtTask.add_aux_kernel =>
      if cfg.use_exp_form then
        Except.ok { descriptors := [densityAuxKernel cfg var_name]
                  , copies := [], exodusRestart := false }
      else
        Except.ok ActOutput.empty

/-- The temperature variable added after the group loop: first order,
`L2_LAGRANGE` family when `dg_for_temperature` and `LAGRANGE` otherwise,
scaling from `temp_scaling` when set and 1 otherwise. -/
def tempVariableDescriptor (cfg : Config) : Descriptor :=
  { kind := "Variable"
  , name := "temp"
  , params :=
      [("order", Value.str "FIRST"),
       ("family", Value.str
         (if cfg.dg_for_temperature then "L2_LAGRANGE" else "LAGRANGE")),
       ("scaling", Value.int
         (match cfg.temp_scaling with
          | some s => s
          | none => 1))] }

/-- The section after the group loop: the temperature variable, guarded by
`create_temperature_var`, with its own restart handling and `add_variable`
block. -/
def tempAct (cfg : Config) (task : NtTask) : ActOutput :=
  if cfg.create_temperature_var then
    { descriptors :=
        if task = NtTask.add_variable then [tempVariableDescriptor cfg]
        else []
    , copies :=
        if task = NtTask.copy_nodal_vars then
          if cfg.init_temperature_from_file then [("temp", "temp", "LATEST")]
          else []
        else []
    , exodusRestart :=
        if task = NtTask.check_copy_nodal_vars then cfg.init_temperature_from_file
        else false }
  else ActOutput.empty

/-- The group indices `op = 1 .. num_groups` traversed by the loop. -/
def groupRange (n : Nat) : List Nat :=
  (List.range n).map (fun k => k + 1)

/-- Folding the per-group loop over a list of group indices, aborting at the
first `mooseError`. -/
def actGroups (cfg : Config) (task : NtTask) : List Nat → Except String ActOutput
  | [] => Except.ok ActOutput.empty
  | op :: rest =>
      match groupAct cfg task op with
      | Except.error e => Except.error e
      | Except.ok h =>
          match actGroups cfg task rest with
          | Except.error e => Except.error e
          | Except.ok t => Except.ok (ActOutput.append h t)

/-- `NtAction::act`: the per-group loop followed by the temperature
section.  A `mooseError` aborts the action, so the temperature section does
not run after an error. -/
def act (cfg : Config) (task : NtTask) : Except String ActOutput :=
  match actGroups cfg task (groupRange cfg.num_groups) with
  | Except.error e => Except.error e
  | Except.ok g => Except.ok (ActOutput.append g (tempAct cfg task))

/-- The `mooseError` message raised by the `NtAction` constructor. -/
def preConcsError : String :=
  "If we are accounting for delayed neutrons, then you must supply pre_concs."

/-- `NtAction::NtAction`: construction fails when `account_delayed` is set
but `pre_concs` is not supplied. -/
def mkNtAction (cfg : Config) : Except String Config :=
  if cfg.pre_concs.isNone && cfg.account_delayed then Except.error preConcsError
  else Except.ok cfg

/-- The descriptors emitted by a task, or `[]` if the task aborted with an
error (an aborted task submits nothing in this model). -/
def taskDescriptors (cfg : Config) (task : NtTask) : List Descriptor :=
  match act cfg task with
  | Except.ok o => o.descriptors
  | Except.error _ => []

/-- Whether a task run aborted with a `mooseError`. -/
def raisesError (e : Except String ActOutput) : Bool :=
  match e with
  | Except.error _ => true
  | Except.ok _ => false

/-- The descriptors emitted by the `add_kernel` task. -/
def kernelsOut (cfg : Config) : List Descriptor :=
  taskDescriptors cfg NtTask.add_kernel

/-- The descriptors emitted by the `add_aux_variable` task. -/
def auxVarsOut (cfg : Config) : List Descriptor :=
  taskDescriptors cfg NtTask.add_aux_variable

/-- The descriptors emitted by the `add_aux_kernel` task. -/
def auxKernelsOut (cfg : Config) : List Descriptor :=
  taskDescriptors cfg NtTask.add_aux_kernel

/-- Whether the `check_copy_nodal_vars` task called
`setExodusFileRestart(true)`. -/
def restartSignal (cfg : Config) : Bool :=
  match act cfg NtTask.check_copy_nodal_vars with
  | Except.ok o => o.exodusRestart
  | Except.error _ => false

/-- Removing every time-derivative kernel descriptor from an `add_kernel`
emission. -/
def dropTimeDerivative (ds : List Descriptor) : List Descriptor :=
  ds.filter (fun d => d.kind != "NtTimeDerivative")

/-- The one extra parameter an eigenvalue run adds: the fission kernel is
tagged with the `eigen` extra vector tag; every other descriptor is left
untouched. -/
def addEigenTag (d : Descriptor) : Descriptor :=
  if d.kind = "CoupledFissionKernel" then
    { d with params := d.params ++ [("extra_vector_tags", Value.strList ["eigen"])] }
  else d

/-- The number of in-scatter kernel descriptors in an emission. -/
def countInScatter (ds : List Descriptor) : Nat :=
  (ds.filter (fun d => d.kind == "InScatter")).length

/-- The concatenated `add_kernel` emission over a list of group indices. -/
def kernelsList (cfg : Config) : List Nat → List Descriptor
  | [] => []
  | op :: rest => groupKernels cfg op ++ kernelsList cfg rest

/-- A baseline configuration used for concrete evaluations: one energy
group, one precursor group, all optional parameters unset, all flags at
their default or simplest value. -/
def cfgBase : Config :=
  { num_precursor_groups := 1
  , var_name_base := "group"
  , temperature := "temp"
  , pre_concs := none
  , temp_scaling := none
  , num_groups := 1
  , use_exp_form := false
  , jac_test := false
  , nt_ic_function := none
  , vacuum_boundaries := none
  , vacuum_bc_type := VacuumBCType.marshak
  , create_temperature_var := true
  , init_nts_from_file := false
  , init_temperature_from_file := false
  , dg_for_temperature := true
  , eigen := false
  , account_delayed := false
  , sss2_input := false
  , pre_blocks := none
  , block := none
  , eigenvalue_scaling := 1 }

/-- A configuration requesting both `jac_test` and `nt_ic_function` while
restarting the neutron fields from file. -/
def cfgConflictRestart : Config :=
  { cfgBase with
      jac_test := true
      nt_ic_function := some "f0"
      init_nts_from_file := true }

/-- A configuration requesting both `jac_test` and `nt_ic_function` without
restarting from file. -/
def cfgConflict : Config :=
  { cfgBase with jac_test := true, nt_ic_function := some "f0" }

/-- A configuration whose only restore-from-file flag is the temperature
one, with the temperature variable disabled. -/
def cfgTempRestartOnly : Config :=
  { cfgBase with
      init_temperature_from_file := true
      create_temperature_var := false }

/-- Appending the empty effect on the right changes nothing. -/
theorem ActOutput.append_empty (a : ActOutput) :
    ActOutput.append a ActOutput.empty = a := by
  simp [ActOutput.append, ActOutput.empty]

/-- The temperature section is inert for every task other than
`add_variable` and the two restart tasks. -/
theorem tempAct_other (cfg : Config) (task : NtTask)
    (h1 : task ≠ NtTask.add_variable) (h2 : task ≠ NtTask.copy_nodal_vars)
    (h3 : task ≠ NtTask.check_copy_nodal_vars) :
    tempAct cfg task = ActOutput.empty := by
  by_cases hc : cfg.create_temperature_var <;>
    simp [tempAct, hc, h1, h2, h3, ActOutput.empty]

/-- Mapping over the group indices `1 .. n`. -/
theorem groupRange_map {α : Type} (f : Nat → α) (n : Nat) :
    (groupRange n).map f = (List.range n).map (fun k => f (k + 1)) := by
  simp [groupRange, List.map_map, Function.comp]

/-- `groupRange n` has `n` elements. -/
theorem groupRange_length (n : Nat) : (groupRange n).length = n := by
  simp [groupRange]

/-- `groupRange n` is empty exactly when `n = 0`. -/
theorem groupRange_isEmpty (n : Nat) : (groupRange n).isEmpty = (n == 0) := by
  cases n with
  | zero => rfl
  | succ m => simp [groupRange, List.range_succ_eq_map]

/-- The group loop under `add_variable` emits one variable descriptor per
group index, in order. -/
theorem actGroups_add_variable (cfg : Config) (l : List Nat) :
    actGroups cfg NtTask.add_variable l =
      Except.ok
        { descriptors := l.map (fun op => addVariableDescriptor cfg (variableName cfg op))
        , copies := [], exodusRestart := false } := by
  induction l with
  | nil => rfl
  | cons op rest ih => simp [actGroups, groupAct, ih, ActOutput.append]

/-- The group loop under `add_kernel` emits the concatenated per-group
kernel descriptors. -/
theorem actGroups_add_kernel (cfg : Config) (l : List Nat) :
    actGroups cfg NtTask.add_kernel l =
      Except.ok { descriptors := kernelsList cfg l
                , copies := [], exodusRestart := false } := by
  induction l with
  | nil => rfl
  | cons op rest ih => simp [actGroups, groupAct, ih, ActOutput.append, kernelsList]

/-- The group loop under `add_bc` with no vacuum boundary list emits
nothing. -/
theorem actGroups_add_bc_none (cfg : Config)
    (hv : cfg.vacuum_boundaries = none) (l : List Nat) :
    actGroups cfg NtTask.add_bc l = Except.ok ActOutput.empty := by
  induction l with
  | nil => rfl
  | cons op rest ih =>
      simp [actGroups, groupAct, groupBCs, hv, ih, ActOutput.append,
            ActOutput.empty]

/-- The group loop under `add_bc` with a vacuum boundary list emits one
`VacuumConcBC` descriptor per group, referencing the list and the chosen
variant. -/
theorem actGroups_add_bc_some (cfg : Config) (v : List String)
    (hv : cfg.vacuum_boundaries = some v) (l : List Nat) :
    actGroups cfg NtTask.add_bc l =
      Except.ok
        { descriptors := l.map (fun op =>
            { kind := "VacuumConcBC"
            , name := "VacuumConcBC_" ++ variableName cfg op
            , params :=
                [("boundary", Value.strList v),
                 ("variable", Value.str (variableName cfg op)),
                 ("use_exp_form", Value.bool cfg.use_exp_form),
                 ("vacuum_bc_type", Value.str cfg.vacuum_bc_type.render)] })
        , copies := [], exodusRestart := false } := by
  induction l with
  | nil => rfl
  | cons op rest ih =>
      simp [actGroups, groupAct, groupBCs, hv, ih, ActOutput.append]

/-- The group loop under `add_ic` while restarting from file emits
nothing and raises nothing. -/
theorem actGroups_add_ic_restart (cfg : Config)
    (h : cfg.init_nts_from_file = true) (l : List Nat) :
    actGroups cfg NtTask.add_ic l = Except.ok ActOutput.empty := by
  induction l with
  | nil => rfl
  | cons op rest ih =>
      simp [actGroups, groupAct, h, ih, ActOutput.append, ActOutput.empty]

/-- The group loop under `add_ic` without restart and without conflicting
options emits one IC descriptor per group. -/
theorem actGroups_add_ic_ok (cfg : Config)
    (h1 : cfg.init_nts_from_file = false)
    (h2 : cfg.jac_test = false ∨ cfg.nt_ic_function = none) (l : List Nat) :
    actGroups cfg NtTask.add_ic l =
      Except.ok
        { descriptors := l.map (fun op => groupIC cfg (variableName cfg op))
        , copies := [], exodusRestart := false } := by
  have hgate : (cfg.jac_test && cfg.nt_ic_function.isSome) = false := by
    cases h2 with
    | inl h => simp [h]
    | inr h => simp [h]
  induction l with
  | nil => rfl
  | cons op rest ih =>
      simp [actGroups, groupAct, h1, hgate, ih, ActOutput.append]

/-- The group loop under `add_aux_variable` without the exponential form
emits nothing. -/
theorem actGroups_aux_var_off (cfg : Config)
    (h : cfg.use_exp_form = false) (l : List Nat) :
    actGroups cfg NtTask.add_aux_variable l = Except.ok ActOutput.empty := by
  induction l with
  | nil => rfl
  | cons op rest ih =>
      simp [actGroups, groupAct, h, ih, ActOutput.append, ActOutput.empty]

/-- The group loop under `add_aux_variable` with the exponential form
emits one aux variable per group, named with the `_lin` suffix. -/
theorem actGroups_aux_var_on (cfg : Config)
    (h : cfg.use_exp_form = true) (l : List Nat) :
    actGroups cfg NtTask.add_aux_variable l =
      Except.ok
        { descriptors := l.map (fun op =>
            auxVarDescriptor cfg (variableName cfg op ++ "_lin"))
        , copies := [], exodusRestart := false } := by
  induction l with
  | nil => rfl
  | cons op rest ih =>
      simp [actGroups, groupAct, h, ih, ActOutput.append]

/-- The group loop under `add_aux_kernel` without the exponential form
emits nothing. -/
theorem actGroups_aux_kernel_off (cfg : Config)
    (h : cfg.use_exp_form = false) (l : List Nat) :
    actGroups cfg NtTask.add_aux_kernel l = Except.ok ActOutput.empty := by
  induction l with
  | nil => rfl
  | cons op rest ih =>
      simp [actGroups, groupAct, h, ih, ActOutput.append, ActOutput.empty]

/-- The group loop under `add_aux_kernel` with the exponential form emits
one `Density` conversion kernel per group. -/
theorem actGroups_aux_kernel_on (cfg : Config)
    (h : cfg.use_exp_form = true) (l : List Nat) :
    actGroups cfg NtTask.add_aux_kernel l =
      Except.ok
        { descriptors := l.map (fun op =>
            densityAuxKernel cfg (variableName cfg op))
        , copies := [], exodusRestart := false } := by
  induction l with
  | nil => rfl
  | cons op rest ih =>
      simp [actGroups, groupAct, h, ih, ActOutput.append]

/-- The group loop under `check_copy_nodal_vars` emits nothing and signals
restart exactly when the neutron restart flag is set and at least one
group exists. -/
theorem actGroups_check (cfg : Config) (l : List Nat) :
    actGroups cfg NtTask.check_copy_nodal_vars l =
      Except.ok
        { descriptors := [], copies := []
        , exodusRestart := cfg.init_nts_from_file && !l.isEmpty } := by
  induction l with
  | nil => simp [actGroups, ActOutput.empty]
  | cons op rest ih =>
      simp [actGroups, groupAct, ih, ActOutput.append]
      cases cfg.init_nts_from_file <;> simp

/-- `act` under `add_kernel` emits the concatenated per-group kernel
descriptors and nothing else. -/
theorem act_add_kernel (cfg : Config) :
    act cfg NtTask.add_kernel =
      Except.ok { descriptors := kernelsList cfg (groupRange cfg.num_groups)
                , copies := [], exodusRestart := false } := by
  unfold act
  rw [actGroups_add_kernel]
  simp [tempAct_other, ActOutput.append_empty]

/-- The kernel emission as a function of the group range. -/
theorem kernelsOut_eq (cfg : Config) :
    kernelsOut cfg = kernelsList cfg (groupRange cfg.num_groups) := by
  simp [kernelsOut, taskDescriptors, act_add_kernel]

/-- C1: for `num_groups = N` and base name `b`, the `add_variable` task
emits exactly the `N` group-variable descriptors named `b ++ decimal i` for
`i = 1 .. N`, 1-based, no padding, in ascending group order, followed by
the temperature variable descriptor exactly when `create_temperature_var`
is set. -/
theorem C1_addVariable_descriptors (cfg : Config) :
    act cfg NtTask.add_variable =
      Except.ok
        { descriptors :=
            ((List.range cfg.num_groups).map (fun k =>
               addVariableDescriptor cfg (cfg.var_name_base ++ toString (k + 1))))
            ++ (if cfg.create_temperature_var then [tempVariableDescriptor cfg]
                else [])
        , copies := [], exodusRestart := false } := by
  unfold act
  rw [actGroups_add_variable]
  by_cases hc : cfg.create_temperature_var <;>
    simp [tempAct, hc, ActOutput.append, ActOutput.empty, groupRange_map,
          variableName]

/-- C4: constructing the action with `account_delayed` set and `pre_concs`
unset is exactly the configuration rejected by the constructor, before any
task runs; every other configuration constructs successfully. -/
theorem C4_construction_pre_concs (cfg : Config) :
    (mkNtAction cfg = Except.error preConcsError ↔
       cfg.account_delayed = true ∧ cfg.pre_concs = none)
    ∧ (mkNtAction cfg = Except.ok cfg ↔
       ¬(cfg.account_delayed = true ∧ cfg.pre_concs = none)) := by
  cases hc : cfg.pre_concs <;> cases ha : cfg.account_delayed <;>
    simp [mkNtAction, hc, ha]

/-- Per group, switching `eigen` on removes the time-derivative kernel and
adds the `eigen` extra vector tag to the fission kernel; the other
descriptors are untouched. -/
theorem groupKernels_eigen (cfg : Config) (op : Nat) :
    groupKernels { cfg with eigen := true } op =
      (dropTimeDerivative (groupKernels { cfg with eigen := false } op)).map
        addEigenTag := by
  by_cases h1 : cfg.num_groups = 1 <;> by_cases h2 : cfg.account_delayed = true <;>
    simp [groupKernels, dropTimeDerivative, ntKernel, coupledFissionKernel,
          delayedNeutronSource, addEigenTag, variableName, allVarNames,
          blockParam, h1, h2, List.filter]

/-- `groupKernels_eigen`, lifted to any list of group indices. -/
theorem kernelsList_eigen (cfg : Config) (l : List Nat) :
    kernelsList { cfg with eigen := true } l =
      (dropTimeDerivative (kernelsList { cfg with eigen := false } l)).map
        addEigenTag := by
  induction l with
  | nil => rfl
  | cons op rest ih =>
      simp only [kernelsList, dropTimeDerivative, List.filter_append,
                 List.map_append]
      rw [← dropTimeDerivative.eq_def, ← dropTimeDerivative.eq_def]
      rw [ih, groupKernels_eigen]

/-- C2 counterexample: at the baseline one-group configuration, the
`add_kernel` output of the eigenvalue run is NOT the transient output with
only the time-derivative kernel removed — the fission kernel additionally
gains the `eigen` extra vector tag, so its parameter map differs. -/
theorem C2_counterexample :
    ¬ (kernelsOut { cfgBase with eigen := true } =
        dropTimeDerivative (kernelsOut { cfgBase with eigen := false })) := by
  decide

/-- C2 amended: for every configuration, the eigenvalue `add_kernel` output
is the transient output with every time-derivative kernel removed and with
the `eigen` extra-vector-tag parameter appended to each group's fission
kernel; every other descriptor (kind, name and parameter map) is
identical. -/
theorem C2_eigen_frame (cfg : Config) :
    kernelsOut { cfg with eigen := true } =
      (dropTimeDerivative (kernelsOut { cfg with eigen := false })).map
        addEigenTag := by
  rw [kernelsOut_eq, kernelsOut_eq]
  exact kernelsList_eigen cfg (groupRange cfg.num_groups)

/-- Each group contributes one in-scatter kernel descriptor, except in the
one-group case where it contributes none. -/
theorem countInScatter_groupKernels (cfg : Config) (op : Nat) :
    countInScatter (groupKernels cfg op) =
      if cfg.num_groups = 1 then 0 else 1 := by
  by_cases h1 : cfg.num_groups = 1 <;> by_cases h2 : cfg.account_delayed = true <;>
    by_cases h3 : cfg.eigen = true <;>
    simp [countInScatter, groupKernels, ntKernel, coupledFissionKernel,
          delayedNeutronSource, variableName, allVarNames, blockParam,
          h1, h2, h3, List.filter]

/-- In-scatter count over a list of group indices. -/
theorem countInScatter_kernelsList (cfg : Config) (l : List Nat) :
    countInScatter (kernelsList cfg l) =
      if cfg.num_groups = 1 then 0 else l.length := by
  induction l with
  | nil => by_cases h : cfg.num_groups = 1 <;> simp [kernelsList, countInScatter, h]
  | cons op rest ih =>
      have hsplit : countInScatter (kernelsList cfg (op :: rest)) =
          countInScatter (groupKernels cfg op) +
            countInScatter (kernelsList cfg rest) := by
        simp [kernelsList, countInScatter, List.filter_append]
      rw [hsplit, countInScatter_groupKernels, ih]
      by_cases h : cfg.num_groups = 1 <;> simp [h, Nat.add_comm]

/-- C3: the `add_kernel` task emits no in-scatter kernel descriptor when
`num_groups = 1`, and exactly one per group — `num_groups` in total —
otherwise. -/
theorem C3_inScatter_count (cfg : Config) :
    countInScatter (kernelsOut cfg) =
      if cfg.num_groups = 1 then 0 else cfg.num_groups := by
  rw [kernelsOut_eq, countInScatter_kernelsList, groupRange_length]

/-- Lifting a group-loop result to `act` for tasks whose temperature
section is inert. -/
theorem act_of_actGroups (cfg : Config) (task : NtTask) (o : ActOutput)
    (h : actGroups cfg task (groupRange cfg.num_groups) = Except.ok o)
    (h1 : task ≠ NtTask.add_variable) (h2 : task ≠ NtTask.copy_nodal_vars)
    (h3 : task ≠ NtTask.check_copy_nodal_vars) :
    act cfg task = Except.ok o := by
  unfold act
  rw [h, tempAct_other cfg task h1 h2 h3]
  simp [ActOutput.append_empty]

/-- Reading the emitted descriptors off a successful task run. -/
theorem taskDescriptors_of_ok (cfg : Config) (task : NtTask) (o : ActOutput)
    (h : act cfg task = Except.ok o) :
    taskDescriptors cfg task = o.descriptors := by
  simp [taskDescriptors, h]

/-- C5 counterexample: a configuration with `jac_test` set and
`nt_ic_function` supplied on which the `add_ic` task raises no error at
all (because the neutron fields are restarted from file), contradicting
the claim that every such configuration fails the task. -/
theorem C5_counterexample :
    cfgConflictRestart.jac_test = true ∧
    cfgConflictRestart.nt_ic_function.isSome = true ∧
    act cfgConflictRestart NtTask.add_ic = Except.ok ActOutput.empty := by
  exact ⟨rfl, rfl, rfl⟩

/-- C5 amended: with `jac_test` set and `nt_ic_function` supplied, provided
the neutron fields are not restarted from file and at least one group
exists, the `add_ic` task aborts with the conflicting-options error and
emits zero descriptors. -/
theorem C5_conflict_raises (cfg : Config) (h1 : cfg.jac_test = true)
    (h2 : cfg.nt_ic_function.isSome = true)
    (h3 : cfg.init_nts_from_file = false) (h4 : 1 ≤ cfg.num_groups) :
    act cfg NtTask.add_ic = Except.error jacTestConflictError ∧
    taskDescriptors cfg NtTask.add_ic = [] := by
  have hconf : ∀ (op : Nat) (rest : List Nat),
      actGroups cfg NtTask.add_ic (op :: rest) =
        Except.error jacTestConflictError := by
    intro op rest
    simp [actGroups, groupAct, h1, h2, h3]
  obtain ⟨op, rest, hr⟩ :
      ∃ op rest, groupRange cfg.num_groups = op :: rest := by
    rcases hx : groupRange cfg.num_groups with _ | ⟨op, rest⟩
    · exfalso
      have hl := groupRange_length cfg.num_groups
      rw [hx] at hl
      simp at hl
      omega
    · exact ⟨op, rest, rfl⟩
  have hact : act cfg NtTask.add_ic = Except.error jacTestConflictError := by
    unfold act
    rw [hr, hconf]
  exact ⟨hact, by simp [taskDescriptors, hact]⟩

/-- C5 amended, witness at a concrete conflicting configuration. -/
theorem C5_conflict_raises_witness :
    act cfgConflict NtTask.add_ic = Except.error jacTestConflictError ∧
    taskDescriptors cfgConflict NtTask.add_ic = [] :=
  C5_conflict_raises cfgConflict rfl rfl rfl (by decide)

/-- C6 counterexample: a non-restarting one-group configuration (with
`jac_test` set and `nt_ic_function` supplied) on which `add_ic` emits zero
descriptors instead of exactly one per group — the task aborts with the
conflicting-options error. -/
theorem C6_counterexample :
    cfgConflict.init_nts_from_file = false ∧ cfgConflict.num_groups = 1 ∧
    taskDescriptors cfgConflict NtTask.add_ic = [] ∧
    raisesError (act cfgConflict NtTask.add_ic) = true := by
  exact ⟨rfl, rfl, rfl, rfl⟩

/-- C6 amended: provided `jac_test` and `nt_ic_function` are not both
requested, the `add_ic` task emits, per group, exactly one IC descriptor —
random if `jac_test`, else function-based if `nt_ic_function` is set, else
constant with value 0 in exponential mode and 1 otherwise (the rule encoded
by `groupIC`) — and emits none at all when restarting from file. -/
theorem C6_addIC_descriptors (cfg : Config)
    (h : cfg.jac_test = false ∨ cfg.nt_ic_function = none) :
    act cfg NtTask.add_ic =
      Except.ok
        { descriptors :=
            if cfg.init_nts_from_file then []
            else
              (List.range cfg.num_groups).map (fun k =>
                groupIC cfg (cfg.var_name_base ++ toString (k + 1)))
        , copies := [], exodusRestart := false } := by
  by_cases hr : cfg.init_nts_from_file = true
  · have := act_of_actGroups cfg NtTask.add_ic _
      (actGroups_add_ic_restart cfg hr (groupRange cfg.num_groups))
      (by decide) (by decide) (by decide)
    simp [this, hr, ActOutput.empty]
  · have hr' : cfg.init_nts_from_file = false := by
      simpa using hr
    have := act_of_actGroups cfg NtTask.add_ic _
      (actGroups_add_ic_ok cfg hr' h (groupRange cfg.num_groups))
      (by decide) (by decide) (by decide)
    rw [this]
    simp [hr', groupRange_map, variableName]

/-- C6 amended, witness at the baseline configuration. -/
theorem C6_addIC_descriptors_witness :
    act cfgBase NtTask.add_ic =
      Except.ok
        { descriptors :=
            if cfgBase.init_nts_from_file then []
            else
              (List.range cfgBase.num_groups).map (fun k =>
                groupIC cfgBase (cfgBase.var_name_base ++ toString (k + 1)))
        , copies := [], exodusRestart := false } :=
  C6_addIC_descriptors cfgBase (Or.inl rfl)

/-- C7: with the exponential representation on, `add_aux_variable` emits
exactly one aux variable per group, named `variableName(i) ++ "_lin"`, and
`add_aux_kernel` emits exactly one density-conversion kernel per group (so
2 of each for `num_groups = 2`); with it off, both tasks emit nothing. -/
theorem C7_aux_emission (cfg : Config) :
    (auxVarsOut cfg =
       if cfg.use_exp_form then
         (List.range cfg.num_groups).map (fun k =>
           auxVarDescriptor cfg (cfg.var_name_base ++ toString (k + 1) ++ "_lin"))
       else [])
    ∧ (auxKernelsOut cfg =
       if cfg.use_exp_form then
         (List.range cfg.num_groups).map (fun k =>
           densityAuxKernel cfg (cfg.var_name_base ++ toString (k + 1)))
       else []) := by
  constructor
  · by_cases h : cfg.use_exp_form = true
    · have hv := act_of_actGroups cfg NtTask.add_aux_variable _
        (actGroups_aux_var_on cfg h (groupRange cfg.num_groups))
        (by decide) (by decide) (by decide)
      rw [auxVarsOut, taskDescriptors_of_ok cfg NtTask.add_aux_variable _ hv]
      simp [h, groupRange_map, variableName]
    · have h' : cfg.use_exp_form = false := by simpa using h
      have hv := act_of_actGroups cfg NtTask.add_aux_variable _
        (actGroups_aux_var_off cfg h' (groupRange cfg.num_groups))
        (by decide) (by decide) (by decide)
      rw [auxVarsOut, taskDescriptors_of_ok cfg NtTask.add_aux_variable _ hv]
      simp [h', ActOutput.empty]
  · by_cases h : cfg.use_exp_form = true
    · have hv := act_of_actGroups cfg NtTask.add_aux_kernel _
        (actGroups_aux_kernel_on cfg h (groupRange cfg.num_groups))
        (by decide) (by decide) (by decide)
      rw [auxKernelsOut, taskDescriptors_of_ok cfg NtTask.add_aux_kernel _ hv]
      simp [h, groupRange_map, variableName]
    · have h' : cfg.use_exp_form = false := by simpa using h
      have hv := act_of_actGroups cfg NtTask.add_aux_kernel _
        (actGroups_aux_kernel_off cfg h' (groupRange cfg.num_groups))
        (by decide) (by decide) (by decide)
      rw [auxKernelsOut, taskDescriptors_of_ok cfg NtTask.add_aux_kernel _ hv]
      simp [h', ActOutput.empty]

/-- C8: with a vacuum boundary list supplied, `add_bc` emits exactly one
`VacuumConcBC` descriptor per group, referencing the supplied boundary list
and the chosen vacuum-BC variant; with no list supplied it emits nothing. -/
theorem C8_addBC_emission (cfg : Config) :
    act cfg NtTask.add_bc =
      Except.ok
        { descriptors :=
            match cfg.vacuum_boundaries with
            | some vb =>
                (List.range cfg.num_groups).map (fun k =>
                  { kind := "VacuumConcBC"
                  , name := "VacuumConcBC_" ++ (cfg.var_name_base ++ toString (k + 1))
                  , params :=
                      [("boundary", Value.strList vb),
                       ("variable", Value.str (cfg.var_name_base ++ toString (k + 1))),
                       ("use_exp_form", Value.bool cfg.use_exp_form),
                       ("vacuum_bc_type", Value.str cfg.vacuum_bc_type.render)] })
            | none => []
        , copies := [], exodusRestart := false } := by
  cases hv : cfg.vacuum_boundaries with
  | none =>
      have ha := act_of_actGroups cfg NtTask.add_bc _
        (actGroups_add_bc_none cfg hv (groupRange cfg.num_groups))
        (by decide) (by decide) (by decide)
      simp [ha, hv, ActOutput.empty]
  | some v =>
      have ha := act_of_actGroups cfg NtTask.add_bc _
        (actGroups_add_bc_some cfg v hv (groupRange cfg.num_groups))
        (by decide) (by decide) (by decide)
      rw [ha]
      simp [hv, groupRange_map, variableName]

/-- C9 counterexample: a configuration whose temperature restore-from-file
flag is set but whose temperature variable is disabled; the restart-check
task does not signal restart-enabled, contradicting the claimed
if-and-only-if. -/
theorem C9_counterexample :
    cfgTempRestartOnly.init_temperature_from_file = true ∧
    restartSignal cfgTempRestartOnly = false := by
  exact ⟨rfl, rfl⟩

/-- C9 amended: the restart-check task emits no descriptor and signals
restart-enabled iff the neutron restart flag is set and at least one group
exists, or the temperature restart flag is set and the temperature variable
is enabled; and setting the process-wide restart flag is idempotent, so
signaling once and signaling repeatedly leave the same state. -/
theorem C9_checkRestart (cfg : Config) :
    (act cfg NtTask.check_copy_nodal_vars =
       Except.ok
         { descriptors := [], copies := []
         , exodusRestart :=
             (cfg.init_nts_from_file && !(cfg.num_groups == 0))
             || (cfg.create_temperature_var && cfg.init_temperature_from_file) })
    ∧ (∀ b : Bool,
        ((b || restartSignal cfg) || restartSignal cfg) =
          (b || restartSignal cfg)) := by
  constructor
  · unfold act
    rw [actGroups_check]
    by_cases hc : cfg.create_temperature_var = true <;>
      simp [tempAct, hc, ActOutput.append, ActOutput.empty, groupRange_isEmpty]
  · intro b
    cases b <;> cases hs : restartSignal cfg <;> simp

/-- C10: when the neutron fields are restarted from file, the `add_ic`
task raises no error and emits nothing even if `jac_test` and
`nt_ic_function` are both requested — the mutually-exclusive-IC validation
is skipped entirely. -/
theorem C10_restart_skips_validation (cfg : Config)
    (h1 : cfg.init_nts_from_file = true) (h2 : cfg.jac_test = true)
    (h3 : cfg.nt_ic_function.isSome = true) :
    act cfg NtTask.add_ic = Except.ok ActOutput.empty :=
  act_of_actGroups cfg NtTask.add_ic _
    (actGroups_add_ic_restart cfg h1 (groupRange cfg.num_groups))
    (by decide) (by decide) (by decide)

/-- C10, witness at the concrete conflicting restart configuration. -/
theorem C10_restart_skips_validation_witness :
    act cfgConflictRestart NtTask.add_ic = Except.ok ActOutput.empty :=
  C10_restart_skips_validation cfgConflictRestart rfl rfl rfl
